import Mathlib

/-!
Shallow embedding of `src/watercooler_bt_gui.py` (watercooler-manager).

The embedding models the parts of the program that the verified claims
touch: the binary packet construction of `write_fan_mode`,
`write_pump_mode` and `write_rgb_mode`, the curve interpolation of
`FanCurveWidget.interpolate`, and the stateful handlers of `MainWindow`
(`update_temperatures`, `apply_fan_and_pump`, `apply_rgb`, `apply_curve`,
`set_default_fan_and_pump`).

Modelling conventions:
* Python floats are idealised as `ℚ` (the spec treats interpolation as
  exact real arithmetic); byte values are `ℤ`.
* A Python expression that raises (`ZeroDivisionError` in `interpolate`,
  `IndexError` on `pts[-1]` of an empty list, `ValueError` from
  `bytearray` on an out-of-range byte) is modelled as `none` / a raised
  flag; the exception propagates out of the handler, so a handler result
  carries a `Bool` that is `true` when it escaped by exception.
* The BLE transport is modelled as a function `List ℤ → Bool` giving the
  success of `write_gatt_char` on a given packet.  Each handler returns
  the list of packets it passed to the transport, in order.
-/

namespace Watercooler

/- `class Commands` of the source. -/
namespace Commands

def FAN : ℤ := 0x1B

def PUMP : ℤ := 0x1C

def RGB : ℤ := 0x1E

end Commands

/-- `class PumpVoltage(IntEnum)` of the source. -/
inductive PumpVoltage
  | V7
  | V8
  | V11
  | V12
deriving DecidableEq

/-- The `IntEnum` value of each `PumpVoltage` member. -/
def PumpVoltage.code : PumpVoltage → ℤ
  | .V7 => 0x02
  | .V8 => 0x03
  | .V11 => 0x00
  | .V12 => 0x01

/-- `class RGBMode(IntEnum)` of the source. -/
inductive RGBMode
  | STATIC
  | BREATH
  | RAINBOW
deriving DecidableEq

/-- The `IntEnum` value of each `RGBMode` member. -/
def RGBMode.code : RGBMode → ℤ
  | .STATIC => 0x00
  | .BREATH => 0x01
  | .RAINBOW => 0x02

/-- Python `bytearray([...])`: succeeds iff every entry is in `[0, 256)`,
otherwise raises `ValueError` (modelled as `none`). -/
def mk_bytearray (l : List ℤ) : Option (List ℤ) :=
  if l.all (fun b => decide (0 ≤ b) && decide (b < 256)) then some l else none

/-- Packet built by `write_fan_mode`:
`bytearray([0xFE, Commands.FAN, 0x01 if duty else 0x00, duty, 0, 0, 0, 0xEF])`.
Python truthiness of an `int` is `duty != 0`. -/
def fan_packet (duty : ℤ) : Option (List ℤ) :=
  mk_bytearray [0xFE, Commands.FAN, if duty = 0 then 0x00 else 0x01, duty, 0, 0, 0, 0xEF]

/-- Packet built by `write_pump_mode`:
`bytearray([0xFE, Commands.PUMP, 0x01, 100, int(voltage), 0, 0, 0xEF])`. -/
def pump_packet (voltage : PumpVoltage) : Option (List ℤ) :=
  mk_bytearray [0xFE, Commands.PUMP, 0x01, 100, voltage.code, 0, 0, 0xEF]

/-- Packet built by `write_rgb_mode`:
`bytearray([0xFE, Commands.RGB, 0x01, red, green, blue, int(mode), 0xEF])`. -/
def rgb_packet (mode : RGBMode) (color : ℤ × ℤ × ℤ) : Option (List ℤ) :=
  mk_bytearray [0xFE, Commands.RGB, 0x01, color.1, color.2.1, color.2.2, mode.code, 0xEF]

/-- Python `int(x)` on a float/rational: truncation toward zero. -/
def pyInt (q : ℚ) : ℤ := if 0 ≤ q then ⌊q⌋ else ⌈q⌉

/-! ### Curve model: `FanCurveWidget.interpolate` -/

/-- Python tuple comparison `(t0, p0) <= (t1, p1)`: lexicographic order,
the order used by `sorted(self.points)`. -/
def ptLe (a b : ℤ × ℤ) : Prop :=
  a.1 < b.1 ∨ (a.1 = b.1 ∧ a.2 ≤ b.2)

instance : DecidableRel ptLe := fun a b =>
  decidable_of_iff (a.1 < b.1 ∨ (a.1 = b.1 ∧ a.2 ≤ b.2)) Iff.rfl

instance : IsTotal (ℤ × ℤ) ptLe :=
  ⟨by intro a b; unfold ptLe; omega⟩

instance : IsTrans (ℤ × ℤ) ptLe :=
  ⟨by intro a b c hab hbc; unfold ptLe at *; omega⟩

/-- `pts = sorted(self.points)` in `FanCurveWidget.interpolate`. -/
def sortPoints (points : List (ℤ × ℤ)) : List (ℤ × ℤ) :=
  List.insertionSort ptLe points

namespace FanCurveWidget

/-- The `for i in range(len(pts)-1)` loop of `FanCurveWidget.interpolate`,
walking adjacent pairs of the sorted list with the current head carried
separately.  Falling off the loop returns `pts[-1][1]`, the duty of the
last point; a bracketing pair with `t0 == t1` makes Python divide by zero
(`none`). -/
def interpGo (temp : ℚ) : (ℤ × ℤ) → List (ℤ × ℤ) → Option ℚ
  | p, [] => some ((p.2 : ℚ))
  | p, q :: rest =>
    if ((p.1 : ℚ) ≤ temp ∧ temp ≤ (q.1 : ℚ)) then
      if p.1 = q.1 then none
      else some ((p.2 : ℚ) + ((q.2 : ℚ) - (p.2 : ℚ)) * (temp - (p.1 : ℚ)) / ((q.1 : ℚ) - (p.1 : ℚ)))
    else interpGo temp q rest

/-- Dispatch on the sorted point list: an empty list makes `pts[-1]`
raise `IndexError` (`none`). -/
def interpTop (temp : ℚ) : List (ℤ × ℤ) → Option ℚ
  | [] => none
  | p :: rest => interpGo temp p rest

/-- `FanCurveWidget.interpolate(self, temp)` of the source. -/
def interpolate (points : List (ℤ × ℤ)) (temp : ℚ) : Option ℚ :=
  interpTop temp (sortPoints points)

end FanCurveWidget

/-! ### `MainWindow` state and handlers -/

/-- The slice of a `BleakClient` the handlers read: its `is_connected`
flag. -/
structure Client where
  is_connected : Bool
deriving DecidableEq

/-- The mutable `MainWindow` attributes the modelled handlers touch. -/
structure MainWindow where
  client : Option Client
  curve_points : List (ℤ × ℤ)
  curve_mode_active : Bool
  last_cpu_temp : Option ℚ
  last_gpu_temp : Option ℚ
deriving DecidableEq

/-- The guard `not self.client or not self.client.is_connected` (negated):
`true` iff a client object is held and reports connected. -/
def connectedB (w : MainWindow) : Bool :=
  match w.client with
  | none => false
  | some c => c.is_connected

/-- `duties = [80, 150, 255]` indexed by `self.fan_slider.value()`. -/
def duty_of (i : Fin 3) : ℤ :=
  [(80 : ℤ), 150, 255].get ⟨i.1, i.2⟩

/-- `volts = [PumpVoltage.V7, V8, V11, V12]` indexed by
`self.pump_slider.value()`. -/
def volts_of (i : Fin 4) : PumpVoltage :=
  [PumpVoltage.V7, PumpVoltage.V8, PumpVoltage.V11, PumpVoltage.V12].get ⟨i.1, i.2⟩

/-- Result of one handler run: the new window state, the packets passed
to `write_gatt_char` in order, and whether the handler escaped by an
uncaught exception. -/
abbrev HandlerResult := MainWindow × List (List ℤ) × Bool

/-- The two sticky assignments at the top of
`MainWindow.update_temperatures`: `if cpu is not None:
self.last_cpu_temp = cpu` and likewise for gpu. -/
def stickyUpdate (w : MainWindow) (cpu gpu : Option ℚ) : MainWindow :=
  { w with
    last_cpu_temp := if cpu.isSome then cpu else w.last_cpu_temp,
    last_gpu_temp := if gpu.isSome then gpu else w.last_gpu_temp }

/-- `MainWindow.update_temperatures`, one timer tick.  `cpu`/`gpu` is the
outcome of the offloaded `get_temperatures()` call (already `None, None`
when the executor call raised, matching the `except` clause); `t` is the
transport. -/
def update_temperatures (w : MainWindow) (cpu gpu : Option ℚ) (t : List ℤ → Bool) :
    HandlerResult :=
  if !(stickyUpdate w cpu gpu).curve_mode_active
      || (stickyUpdate w cpu gpu).last_cpu_temp.isNone then
    (stickyUpdate w cpu gpu, [], false)
  else if !connectedB (stickyUpdate w cpu gpu) then
    (stickyUpdate w cpu gpu, [], false)
  else
    match (stickyUpdate w cpu gpu).last_cpu_temp with
    | none => (stickyUpdate w cpu gpu, [], false)
    | some temp =>
      match FanCurveWidget.interpolate (stickyUpdate w cpu gpu).curve_points temp with
      | none => (stickyUpdate w cpu gpu, [], true)
      | some pct =>
        match fan_packet (pyInt pct) with
        | none => (stickyUpdate w cpu gpu, [], true)
        | some p => (stickyUpdate w cpu gpu, [p], !(t p))

/-- `MainWindow.apply_fan_and_pump` (the apply-manual intent). -/
def apply_fan_and_pump (w : MainWindow) (fanIdx : Fin 3) (pumpIdx : Fin 4)
    (t : List ℤ → Bool) : HandlerResult :=
  if !connectedB w then (w, [], false)
  else
    match fan_packet (duty_of fanIdx) with
    | none => ({ w with curve_mode_active := false }, [], true)
    | some fp =>
      if t fp then
        match pump_packet (volts_of pumpIdx) with
        | none => ({ w with curve_mode_active := false }, [fp], true)
        | some pp => ({ w with curve_mode_active := false }, [fp, pp], !(t pp))
      else ({ w with curve_mode_active := false }, [fp], true)

/-- `MainWindow.apply_rgb` (the apply-rgb intent). -/
def apply_rgb (w : MainWindow) (mode : RGBMode) (color : ℤ × ℤ × ℤ)
    (t : List ℤ → Bool) : HandlerResult :=
  if !connectedB w then (w, [], false)
  else
    let c := if mode = RGBMode.RAINBOW then ((0 : ℤ), (0 : ℤ), (0 : ℤ)) else color
    match rgb_packet mode c with
    | none => (w, [], true)
    | some p => (w, [p], !(t p))

/-- `MainWindow.apply_curve` (the apply-curve intent, the one-shot
`applyCurveNow()` of the spec).  `sample` is the pair returned by the
fresh synchronous `get_temperatures()` call; only its cpu half is used
(`cpu,_ = get_temperatures()`). -/
def apply_curve (w : MainWindow) (sample : Option ℚ × Option ℚ)
    (t : List ℤ → Bool) : HandlerResult :=
  if !connectedB w then (w, [], false)
  else
    match sample.1 with
    | none => ({ w with curve_mode_active := true }, [], false)
    | some cpu =>
      match FanCurveWidget.interpolate w.curve_points cpu with
      | none => ({ w with curve_mode_active := true }, [], true)
      | some pct =>
        match fan_packet (pyInt pct) with
        | none => ({ w with curve_mode_active := true }, [], true)
        | some p => ({ w with curve_mode_active := true }, [p], !(t p))

/-- `MainWindow.set_default_fan_and_pump` (the default bring-up after a
successful connect). -/
def set_default_fan_and_pump (w : MainWindow) (t : List ℤ → Bool) : HandlerResult :=
  if !connectedB w then (w, [], false)
  else
    match fan_packet 150 with
    | none => (w, [], true)
    | some fp =>
      if t fp then
        match pump_packet PumpVoltage.V8 with
        | none => (w, [fp], true)
        | some pp => (w, [fp, pp], !(t pp))
      else (w, [fp], true)

/-- The default curve `self.curve_points = [(20,31),(60,58),(100,100)]`. -/
def defaultCurve : List (ℤ × ℤ) := [(20, 31), (60, 58), (100, 100)]

/-- A connected window in curve (automatic) mode with no samples yet. -/
def wAuto : MainWindow :=
  { client := some { is_connected := true },
    curve_points := defaultCurve,
    curve_mode_active := true,
    last_cpu_temp := none,
    last_gpu_temp := none }

/-- A connected window in manual mode with no samples yet. -/
def wManual : MainWindow :=
  { client := some { is_connected := true },
    curve_points := defaultCurve,
    curve_mode_active := false,
    last_cpu_temp := none,
    last_gpu_temp := none }

/-! ### Facts about the sorted point list -/

/-- `sortPoints` permutes the input. -/
lemma sortPoints_perm (points : List (ℤ × ℤ)) : (sortPoints points).Perm points :=
  List.perm_insertionSort ptLe points

/-- A curve whose points have pairwise distinct temperatures sorts into a
list with strictly increasing temperatures. -/
lemma sortPoints_strict (points : List (ℤ × ℤ))
    (h : points.Pairwise fun a b => a.1 ≠ b.1) :
    (sortPoints points).Pairwise fun a b : ℤ × ℤ => a.1 < b.1 := by
  have hs : (sortPoints points).Pairwise ptLe :=
    List.sorted_insertionSort ptLe points
  have hne : (sortPoints points).Pairwise fun a b : ℤ × ℤ => a.1 ≠ b.1 :=
    ((sortPoints_perm points).pairwise_iff (fun hab => hab.symm)).mpr h
  exact (hs.and hne).imp (by intro a b hab; unfold ptLe at hab; omega)

/-- A nonempty curve sorts into a nonempty list. -/
lemma sortPoints_ne_nil (points : List (ℤ × ℤ)) (h : points ≠ []) :
    sortPoints points ≠ [] := by
  intro hnil
  exact h ((hnil ▸ (sortPoints_perm points)).symm.eq_nil)

/-! ### Behaviour of the interpolation loop -/

/-- If the query temperature lies strictly on one side of every point
temperature, no bracketing test succeeds and the loop falls through to
the duty of the last point. -/
lemma interpGo_skip_all (temp : ℚ) :
    ∀ (rest : List (ℤ × ℤ)) (p : ℤ × ℤ),
      ((∀ q ∈ p :: rest, ((q.1 : ℤ) : ℚ) < temp) ∨
        (∀ q ∈ p :: rest, temp < ((q.1 : ℤ) : ℚ))) →
      FanCurveWidget.interpGo temp p rest
        = some ((((p :: rest).getLast (List.cons_ne_nil p rest)).2 : ℚ)) := by
  intro rest
  induction rest with
  | nil =>
    intro p _
    simp [FanCurveWidget.interpGo]
  | cons q rest ih =>
    intro p h
    have hcond : ¬ ((p.1 : ℚ) ≤ temp ∧ temp ≤ (q.1 : ℚ)) := by
      rcases h with h | h
      · have hq : ((q.1 : ℤ) : ℚ) < temp := h q (by simp)
        intro hc
        exact absurd hc.2 (not_le.mpr hq)
      · have hp : temp < ((p.1 : ℤ) : ℚ) := h p (by simp)
        intro hc
        exact absurd hc.1 (not_le.mpr hp)
    have hrest : ((∀ r ∈ q :: rest, ((r.1 : ℤ) : ℚ) < temp) ∨
        (∀ r ∈ q :: rest, temp < ((r.1 : ℤ) : ℚ))) := by
      rcases h with h | h
      · exact Or.inl fun r hr => h r (List.mem_cons_of_mem p hr)
      · exact Or.inr fun r hr => h r (List.mem_cons_of_mem p hr)
    rw [FanCurveWidget.interpGo, if_neg hcond, ih q hrest]
    simp [List.getLast_cons]

/-- On a strictly increasing point list the loop never divides by zero:
it always produces a value. -/
lemma interpGo_total (temp : ℚ) :
    ∀ (rest : List (ℤ × ℤ)) (p : ℤ × ℤ),
      List.Chain' (fun a b : ℤ × ℤ => a.1 < b.1) (p :: rest) →
      (FanCurveWidget.interpGo temp p rest).isSome = true := by
  intro rest
  induction rest with
  | nil =>
    intro p _
    simp [FanCurveWidget.interpGo]
  | cons q rest ih =>
    intro p hch
    have hlt : p.1 < q.1 := (List.chain'_cons.mp hch).1
    rw [FanCurveWidget.interpGo]
    by_cases hc : ((p.1 : ℚ) ≤ temp ∧ temp ≤ (q.1 : ℚ))
    · rw [if_pos hc, if_neg (by omega)]
      rfl
    · rw [if_neg hc]
      exact ih q (List.chain'_cons.mp hch).2

/-- On a strictly increasing point list, if positions `i` and `i+1` hold
`(t0,p0)` and `(t1,p1)` and `t0 ≤ temp ≤ t1`, the loop returns the exact
linear interpolation on that segment (the first matching segment can
differ from segment `i` only when `temp` sits on a shared endpoint, where
both give the same value). -/
lemma interpGo_bracket (temp : ℚ) :
    ∀ (rest : List (ℤ × ℤ)) (p : ℤ × ℤ) (i : ℕ) (t0 p0 t1 p1 : ℤ),
      List.Pairwise (fun a b : ℤ × ℤ => a.1 < b.1) (p :: rest) →
      (p :: rest)[i]? = some (t0, p0) →
      (p :: rest)[i + 1]? = some (t1, p1) →
      (t0 : ℚ) ≤ temp → temp ≤ (t1 : ℚ) →
      FanCurveWidget.interpGo temp p rest
        = some ((p0 : ℚ) + ((p1 : ℚ) - (p0 : ℚ)) * (temp - (t0 : ℚ)) / ((t1 : ℚ) - (t0 : ℚ))) := by
  intro rest
  induction rest with
  | nil =>
    intro p i t0 p0 t1 p1 _ _ h1 _ _
    simp [List.getElem?_cons_succ, List.getElem?_nil] at h1
  | cons q rest ih =>
    intro p i t0 p0 t1 p1 hpw h0 h1 hle0 hle1
    have hpq : p.1 < q.1 := (List.pairwise_cons.mp hpw).1 q (List.mem_cons_self q rest)
    have htail : List.Pairwise (fun a b : ℤ × ℤ => a.1 < b.1) (q :: rest) :=
      (List.pairwise_cons.mp hpw).2
    cases i with
    | zero =>
      rw [List.getElem?_cons_zero, Option.some_inj] at h0
      rw [List.getElem?_cons_succ, List.getElem?_cons_zero, Option.some_inj] at h1
      subst h0
      subst h1
      rw [FanCurveWidget.interpGo, if_pos ⟨hle0, hle1⟩, if_neg (by omega)]
    | succ k =>
      rw [List.getElem?_cons_succ] at h0 h1
      by_cases hc : ((p.1 : ℚ) ≤ temp ∧ temp ≤ (q.1 : ℚ))
      · cases k with
        | zero =>
          rw [List.getElem?_cons_zero, Option.some_inj] at h0
          subst h0
          have ht0 : temp = ((t0 : ℤ) : ℚ) := le_antisymm (by simpa using hc.2) hle0
          have hne : ((t0 : ℤ) : ℚ) - (p.1 : ℚ) ≠ 0 := by
            have : (p.1 : ℚ) < ((t0 : ℤ) : ℚ) := by exact_mod_cast hpq
            intro hz
            rw [sub_eq_zero] at hz
            exact absurd hz.symm (ne_of_lt this)
          rw [FanCurveWidget.interpGo, if_pos hc, if_neg (by simpa using Int.ne_of_lt hpq)]
          rw [ht0]
          rw [sub_self, mul_zero, zero_div, add_zero]
          rw [mul_div_assoc, div_self hne, mul_one]
          simp
        | succ j =>
          exfalso
          rw [List.getElem?_cons_succ] at h0
          have hmem : (t0, p0) ∈ rest := List.getElem?_mem h0
          have hq : q.1 < t0 := (List.pairwise_cons.mp htail).1 (t0, p0) hmem
          have hq' : (q.1 : ℚ) < (t0 : ℚ) := by exact_mod_cast hq
          linarith [hc.2, hle0]
      · rw [FanCurveWidget.interpGo, if_neg hc]
        exact ih q k t0 p0 t1 p1 htail h0 h1 hle0 hle1

/-! ### Claim theorems: curve model -/

/-- Claim C10: for every list of at least one control point whose
temperatures are pairwise distinct, interpolate is total for every query
temperature — the division is never by zero and the final access to the
last sorted point is in bounds, so a value is always returned. -/
theorem interpolate_total (points : List (ℤ × ℤ)) (temp : ℚ)
    (hne : points ≠ [])
    (hd : points.Pairwise fun a b : ℤ × ℤ => a.1 ≠ b.1) :
    (FanCurveWidget.interpolate points temp).isSome = true := by
  have hstrict := sortPoints_strict points hd
  have hnil := sortPoints_ne_nil points hne
  unfold FanCurveWidget.interpolate
  cases hs : sortPoints points with
  | nil => exact absurd hs hnil
  | cons p rest =>
    rw [hs] at hstrict
    exact interpGo_total temp rest p hstrict.chain'

/-- Witness for C10 at the default curve and temperature 37. -/
theorem interpolate_total_witness :
    (FanCurveWidget.interpolate defaultCurve 37).isSome = true :=
  interpolate_total defaultCurve 37 (by decide) (by decide)

/-- Claim C7: for every non-empty curve and query temperature strictly
outside all point temperatures (above the highest or below the lowest),
interpolate returns the duty of the last point in sorted order; on the
default curve, interpolate 150 = 100. -/
theorem interpolate_out_of_range_last (points : List (ℤ × ℤ)) (temp : ℚ)
    (hne : points ≠ [])
    (h : (∀ q ∈ points, ((q.1 : ℤ) : ℚ) < temp) ∨
      (∀ q ∈ points, temp < ((q.1 : ℤ) : ℚ))) :
    FanCurveWidget.interpolate points temp
        = (sortPoints points).getLast?.map (fun q => ((q.2 : ℤ) : ℚ)) ∧
      FanCurveWidget.interpolate defaultCurve 150 = some 100 := by
  constructor
  · have hnil := sortPoints_ne_nil points hne
    unfold FanCurveWidget.interpolate
    cases hs : sortPoints points with
    | nil => exact absurd hs hnil
    | cons p rest =>
      have hmem : ∀ q ∈ p :: rest, q ∈ points := by
        intro q hq
        exact (sortPoints_perm points).mem_iff.mp (by rw [hs]; exact hq)
      have h' : (∀ q ∈ p :: rest, ((q.1 : ℤ) : ℚ) < temp) ∨
          (∀ q ∈ p :: rest, temp < ((q.1 : ℤ) : ℚ)) := by
        rcases h with h | h
        · exact Or.inl fun q hq => h q (hmem q hq)
        · exact Or.inr fun q hq => h q (hmem q hq)
      rw [show FanCurveWidget.interpTop temp (p :: rest)
            = FanCurveWidget.interpGo temp p rest from rfl]
      rw [interpGo_skip_all temp rest p h']
      rw [List.getLast?_eq_getLast (p :: rest) (List.cons_ne_nil p rest)]
      rfl
  · have hs : sortPoints defaultCurve = defaultCurve := by decide
    unfold FanCurveWidget.interpolate
    rw [hs]
    norm_num [defaultCurve, FanCurveWidget.interpTop, FanCurveWidget.interpGo]

/-- Witness for C7 at the default curve and temperature 150. -/
theorem interpolate_out_of_range_last_witness :
    FanCurveWidget.interpolate defaultCurve 150
        = (sortPoints defaultCurve).getLast?.map (fun q => ((q.2 : ℤ) : ℚ)) ∧
      FanCurveWidget.interpolate defaultCurve 150 = some 100 :=
  interpolate_out_of_range_last defaultCurve 150 (by decide)
    (Or.inl (by intro q hq; fin_cases hq <;> norm_num))

/-- Claim C6 counterexample: the claimed concrete value is wrong — on the
default curve [(20,31),(60,58),(100,100)] the code returns
interpolate 40 = 31 + (58-31)*(40-20)/(60-20) = 44.5, not 44.75. -/
theorem interpolate_default_40_cex :
    FanCurveWidget.interpolate defaultCurve 40 = some (89 / 2) ∧
      (89 / 2 : ℚ) ≠ 179 / 4 := by
  constructor
  · have hs : sortPoints defaultCurve = defaultCurve := by decide
    unfold FanCurveWidget.interpolate
    rw [hs]
    norm_num [defaultCurve, FanCurveWidget.interpTop, FanCurveWidget.interpGo]
  · norm_num

/-- Claim C6 (amended): for every curve whose points have pairwise
distinct temperatures and every temperature inside a bracketing segment
[t0,t1] of the sorted points (t0 ≤ temperature ≤ t1, t0 < t1),
interpolate returns exactly p0 + (p1-p0)*(temperature-t0)/(t1-t0) as an
exact unrounded rational; in particular on the default curve
interpolate 40 = 44.5. -/
theorem interpolate_bracket_exact (points : List (ℤ × ℤ)) (temp : ℚ)
    (i : ℕ) (t0 p0 t1 p1 : ℤ)
    (hd : points.Pairwise fun a b : ℤ × ℤ => a.1 ≠ b.1)
    (h0 : (sortPoints points)[i]? = some (t0, p0))
    (h1 : (sortPoints points)[i + 1]? = some (t1, p1))
    (ht : t0 < t1)
    (hle0 : (t0 : ℚ) ≤ temp) (hle1 : temp ≤ (t1 : ℚ)) :
    FanCurveWidget.interpolate points temp
        = some ((p0 : ℚ) + ((p1 : ℚ) - (p0 : ℚ)) * (temp - (t0 : ℚ)) / ((t1 : ℚ) - (t0 : ℚ))) ∧
      FanCurveWidget.interpolate defaultCurve 40 = some (89 / 2) := by
  constructor
  · have hstrict := sortPoints_strict points hd
    unfold FanCurveWidget.interpolate
    cases hs : sortPoints points with
    | nil => rw [hs, List.getElem?_nil] at h0; exact absurd h0 (by simp)
    | cons p rest =>
      rw [hs] at h0 h1 hstrict
      exact interpGo_bracket temp rest p i t0 p0 t1 p1 hstrict h0 h1 hle0 hle1
  · have hs : sortPoints defaultCurve = defaultCurve := by decide
    unfold FanCurveWidget.interpolate
    rw [hs]
    norm_num [defaultCurve, FanCurveWidget.interpTop, FanCurveWidget.interpGo]

/-- Witness for C6 on the first segment of the default curve at
temperature 40. -/
theorem interpolate_bracket_exact_witness :
    FanCurveWidget.interpolate defaultCurve 40
        = some (((31 : ℤ) : ℚ) + (((58 : ℤ) : ℚ) - ((31 : ℤ) : ℚ))
            * ((40 : ℚ) - ((20 : ℤ) : ℚ)) / (((60 : ℤ) : ℚ) - ((20 : ℤ) : ℚ))) ∧
      FanCurveWidget.interpolate defaultCurve 40 = some (89 / 2) :=
  interpolate_bracket_exact defaultCurve 40 0 20 31 60 58
    (by decide) (by decide) (by decide) (by decide) (by norm_num) (by norm_num)

/-! ### Claim theorems: packet codec -/

/-- Claim C5: for every duty d in [0,255], the fan packet is exactly the
8 bytes 0xFE, 0x1B, (1 if d>0 else 0), d, 0, 0, 0, 0xEF. -/
theorem fan_packet_shape (d : ℤ) (hlo : 0 ≤ d) (hhi : d ≤ 255) :
    fan_packet d = some [0xFE, 0x1B, if d = 0 then 0 else 1, d, 0, 0, 0, 0xEF] ∧
      (fan_packet d).map List.length = some 8 := by
  have hp : fan_packet d
      = some [0xFE, 0x1B, if d = 0 then 0 else 1, d, 0, 0, 0, 0xEF] := by
    have hcond : ([0xFE, 0x1B, if d = 0 then (0 : ℤ) else 1, d, 0, 0, 0, 0xEF] : List ℤ).all
        (fun b => decide (0 ≤ b) && decide (b < 256)) = true := by
      simp only [List.all_cons, List.all_nil, Bool.and_eq_true, decide_eq_true_eq]
      rcases eq_or_ne d 0 with h | h <;> simp [h] <;> omega
    unfold fan_packet mk_bytearray Commands.FAN
    rw [if_pos hcond]
  exact ⟨hp, by rw [hp]; rfl⟩

/-- Witness for C5 at duty 150. -/
theorem fan_packet_shape_witness :
    fan_packet 150 = some [0xFE, 0x1B, if (150 : ℤ) = 0 then 0 else 1, 150, 0, 0, 0, 0xEF] ∧
      (fan_packet 150).map List.length = some 8 :=
  fan_packet_shape 150 (by norm_num) (by norm_num)

/-! ### Shared facts about the handlers -/

/-- The state returned by a temperature tick is always the input state
with the two sticky slots updated; nothing else is written. -/
lemma update_temperatures_fst (w : MainWindow) (cpu gpu : Option ℚ)
    (t : List ℤ → Bool) :
    (update_temperatures w cpu gpu t).1 = stickyUpdate w cpu gpu := by
  unfold update_temperatures
  repeat' split
  all_goals rfl

/-- Updating the sticky temperature slots does not change the
connectivity guard. -/
lemma connectedB_update (w : MainWindow) (a b : Option ℚ) :
    connectedB (stickyUpdate w a b) = connectedB w := rfl

/-! ### Claim theorems: handlers -/

/-- Claim C8: a sensor slot is overwritten only when the new sample for
that slot is present; in particular cpu=None, gpu=72 keeps the stored
CPU value and stores GPU 72, and symmetrically. -/
theorem update_temperatures_sticky (w : MainWindow) (cpu gpu : Option ℚ)
    (t : List ℤ → Bool) :
    ((update_temperatures w cpu gpu t).1.last_cpu_temp
        = if cpu.isSome then cpu else w.last_cpu_temp) ∧
    ((update_temperatures w cpu gpu t).1.last_gpu_temp
        = if gpu.isSome then gpu else w.last_gpu_temp) ∧
    ((update_temperatures w none (some 72) t).1.last_cpu_temp = w.last_cpu_temp) ∧
    ((update_temperatures w none (some 72) t).1.last_gpu_temp = some 72) ∧
    ((update_temperatures w (some 72) none t).1.last_gpu_temp = w.last_gpu_temp) ∧
    ((update_temperatures w (some 72) none t).1.last_cpu_temp = some 72) := by
  refine ⟨?_, ?_, ?_, ?_, ?_, ?_⟩ <;> rw [update_temperatures_fst] <;> rfl

/-- Claim C4: every command-sending operation invoked while not connected
returns without touching the transport and without raising. -/
theorem not_connected_no_write (w : MainWindow) (fanIdx : Fin 3) (pumpIdx : Fin 4)
    (mode : RGBMode) (color : ℤ × ℤ × ℤ) (cpu gpu : Option ℚ) (t : List ℤ → Bool)
    (h : connectedB w = false) :
    (apply_fan_and_pump w fanIdx pumpIdx t).2 = ([], false) ∧
    (apply_rgb w mode color t).2 = ([], false) ∧
    (apply_curve w (cpu, gpu) t).2 = ([], false) ∧
    (set_default_fan_and_pump w t).2 = ([], false) ∧
    (update_temperatures w cpu gpu t).2 = ([], false) := by
  refine ⟨?_, ?_, ?_, ?_, ?_⟩
  · simp [apply_fan_and_pump, h]
  · simp [apply_rgb, h]
  · simp [apply_curve, h]
  · simp [set_default_fan_and_pump, h]
  · simp [update_temperatures, connectedB_update, h]

/-- Witness for C4 on a disconnected window. -/
theorem not_connected_no_write_witness :
    (apply_fan_and_pump { wManual with client := none } 0 0 (fun _ => true)).2
        = ([], false) ∧
    (apply_rgb { wManual with client := none } RGBMode.STATIC (255, 0, 0)
        (fun _ => true)).2 = ([], false) ∧
    (apply_curve { wManual with client := none } (some 40, some 50)
        (fun _ => true)).2 = ([], false) ∧
    (set_default_fan_and_pump { wManual with client := none } (fun _ => true)).2
        = ([], false) ∧
    (update_temperatures { wManual with client := none } (some 40) (some 50)
        (fun _ => true)).2 = ([], false) :=
  not_connected_no_write { wManual with client := none } 0 0 RGBMode.STATIC
    (255, 0, 0) (some 40) (some 50) (fun _ => true) rfl

/-- Claim C9: with a connected session, the apply-manual intent forces
the control mode to Manual (curve mode inactive), whatever it was. -/
theorem apply_fan_and_pump_forces_manual (w : MainWindow) (fanIdx : Fin 3)
    (pumpIdx : Fin 4) (t : List ℤ → Bool) (h : connectedB w = true) :
    (apply_fan_and_pump w fanIdx pumpIdx t).1.curve_mode_active = false := by
  unfold apply_fan_and_pump
  rw [h]
  simp only [Bool.not_true]
  rw [if_neg (by simp)]
  repeat' split
  all_goals rfl

/-- Witness for C9: a connected window in automatic mode drops to manual. -/
theorem apply_fan_and_pump_forces_manual_witness :
    (apply_fan_and_pump wAuto 0 0 (fun _ => true)).1.curve_mode_active = false :=
  apply_fan_and_pump_forces_manual wAuto 0 0 (fun _ => true) rfl

/-- Claim C2 counterexample: apply-curve on a connected window whose
fresh read has no CPU value is not mode-preserving — starting from
Manual, the mode afterwards is Automatic. -/
theorem apply_curve_mode_change_cex :
    wManual.curve_mode_active = false ∧
    connectedB wManual = true ∧
    (apply_curve wManual (none, some 50) (fun _ => true)).1.curve_mode_active = true ∧
    (apply_curve wManual (none, some 50) (fun _ => true)).2 = ([], false) :=
  ⟨rfl, rfl, rfl, rfl⟩

/-- Claim C2 (amended): with a connected session, when the fresh read
yields no CPU value apply-curve sends nothing and raises nothing, and its
only state change is setting the control mode to Automatic (so the mode
is unchanged only when it was already Automatic). -/
theorem apply_curve_no_cpu (w : MainWindow) (gpu : Option ℚ) (t : List ℤ → Bool)
    (h : connectedB w = true) :
    apply_curve w (none, gpu) t = ({ w with curve_mode_active := true }, [], false) := by
  unfold apply_curve
  rw [h]
  rfl

/-- Witness for C2 on a connected manual-mode window. -/
theorem apply_curve_no_cpu_witness :
    apply_curve wManual (none, some 50) (fun _ => true)
      = ({ wManual with curve_mode_active := true }, [], false) :=
  apply_curve_no_cpu wManual (some 50) (fun _ => true) rfl

/-- Evaluation of a tick that reaches the fan write: automatic mode, a
sticky CPU value, a connected client, a successful interpolation and a
well-formed packet make the tick attempt exactly that packet, raising iff
the transport write fails. -/
lemma update_temperatures_send (w : MainWindow) (cpu gpu : Option ℚ)
    (t : List ℤ → Bool) (temp pct : ℚ) (pkt : List ℤ)
    (hmode : w.curve_mode_active = true)
    (hconn : connectedB w = true)
    (hcpu : (if cpu.isSome then cpu else w.last_cpu_temp) = some temp)
    (hint : FanCurveWidget.interpolate w.curve_points temp = some pct)
    (hpkt : fan_packet (pyInt pct) = some pkt) :
    update_temperatures w cpu gpu t = (stickyUpdate w cpu gpu, [pkt], !(t pkt)) := by
  have hmode' : (stickyUpdate w cpu gpu).curve_mode_active = true := hmode
  have hconn' : connectedB (stickyUpdate w cpu gpu) = true := hconn
  have hsticky : (stickyUpdate w cpu gpu).last_cpu_temp = some temp := hcpu
  have hpts : (stickyUpdate w cpu gpu).curve_points = w.curve_points := rfl
  unfold update_temperatures
  rw [hmode', hsticky, hconn']
  simp [hpts, hint, hpkt]

/-- Claim C1 (amended): on an automatic tick with a CPU sample observed
and a connected session, when the write goes through, the single packet
sent is the fan command for int(interpolate(lastCpuTemp)) — Python int
truncation toward zero, not rounding to nearest. -/
theorem tick_sends_truncated_duty (w : MainWindow) (cpu gpu : Option ℚ)
    (t : List ℤ → Bool) (temp pct : ℚ) (pkt : List ℤ)
    (hmode : w.curve_mode_active = true)
    (hconn : connectedB w = true)
    (hcpu : (if cpu.isSome then cpu else w.last_cpu_temp) = some temp)
    (hint : FanCurveWidget.interpolate w.curve_points temp = some pct)
    (hpkt : fan_packet (pyInt pct) = some pkt)
    (hok : t pkt = true) :
    (update_temperatures w cpu gpu t).2.1 = [pkt] ∧
    (update_temperatures w cpu gpu t).2.2 = false := by
  rw [update_temperatures_send w cpu gpu t temp pct pkt hmode hconn hcpu hint hpkt]
  simp [hok]

/-- Witness for C1: connected automatic window, CPU 40, interpolation
44.5, duty byte 44 sent. -/
theorem tick_sends_truncated_duty_witness :
    (update_temperatures wAuto (some 40) none (fun _ => true)).2.1
        = [[0xFE, 0x1B, 0x01, 44, 0, 0, 0, 0xEF]] ∧
    (update_temperatures wAuto (some 40) none (fun _ => true)).2.2 = false :=
  tick_sends_truncated_duty wAuto (some 40) none (fun _ => true) 40 (89 / 2)
    [0xFE, 0x1B, 0x01, 44, 0, 0, 0, 0xEF] rfl rfl rfl
    (by
      show FanCurveWidget.interpolate defaultCurve 40 = some (89 / 2)
      have hs : sortPoints defaultCurve = defaultCurve := by decide
      unfold FanCurveWidget.interpolate
      rw [hs]
      norm_num [defaultCurve, FanCurveWidget.interpTop, FanCurveWidget.interpGo])
    (by
      have h44 : pyInt (89 / 2) = 44 := by norm_num [pyInt]
      rw [h44]
      decide)
    rfl

/-- Claim C1 counterexample: at CPU temperature 42 the interpolated duty
is 45.85; the code sends the truncated byte 45, while the claimed
round(45.85) is 46. -/
theorem tick_duty_rounding_cex :
    (update_temperatures wAuto (some 42) none (fun _ => true)).2.1
        = [[0xFE, 0x1B, 0x01, 45, 0, 0, 0, 0xEF]] ∧
    FanCurveWidget.interpolate wAuto.curve_points 42 = some (917 / 20) ∧
    round (917 / 20 : ℚ) = 46 ∧
    (45 : ℤ) ≠ 46 := by
  have hint : FanCurveWidget.interpolate wAuto.curve_points 42 = some (917 / 20) := by
    show FanCurveWidget.interpolate defaultCurve 42 = some (917 / 20)
    have hs : sortPoints defaultCurve = defaultCurve := by decide
    unfold FanCurveWidget.interpolate
    rw [hs]
    norm_num [defaultCurve, FanCurveWidget.interpTop, FanCurveWidget.interpGo]
  have hpkt : fan_packet (pyInt (917 / 20)) = some [0xFE, 0x1B, 0x01, 45, 0, 0, 0, 0xEF] := by
    have h45 : pyInt (917 / 20) = 45 := by norm_num [pyInt]
    rw [h45]
    decide
  refine ⟨?_, hint, by norm_num [round_eq], by norm_num⟩
  rw [update_temperatures_send wAuto (some 42) none (fun _ => true) 42 (917 / 20)
    [0xFE, 0x1B, 0x01, 45, 0, 0, 0, 0xEF] rfl rfl rfl hint hpkt]

/-- Claim C3 (amended): a transport write failure during the automatic
tick raises out of the handler and performs no connection-state change —
the stored client is unchanged and still reports connected; no
disconnect transition happens and no error state is recorded. -/
theorem write_failure_no_transition (w : MainWindow) (cpu gpu : Option ℚ)
    (t : List ℤ → Bool) (temp pct : ℚ) (pkt : List ℤ)
    (hmode : w.curve_mode_active = true)
    (hconn : connectedB w = true)
    (hcpu : (if cpu.isSome then cpu else w.last_cpu_temp) = some temp)
    (hint : FanCurveWidget.interpolate w.curve_points temp = some pct)
    (hpkt : fan_packet (pyInt pct) = some pkt)
    (hfail : t pkt = false) :
    (update_temperatures w cpu gpu t).1.client = w.client ∧
    connectedB (update_temperatures w cpu gpu t).1 = true ∧
    (update_temperatures w cpu gpu t).2.1 = [pkt] ∧
    (update_temperatures w cpu gpu t).2.2 = true := by
  rw [update_temperatures_send w cpu gpu t temp pct pkt hmode hconn hcpu hint hpkt]
  refine ⟨rfl, hconn, rfl, ?_⟩
  simp [hfail]

/-- Witness for C3: concrete failing transport, packet attempted, client
untouched. -/
theorem write_failure_no_transition_witness :
    (update_temperatures wAuto (some 40) none (fun _ => false)).1.client = wAuto.client ∧
    connectedB (update_temperatures wAuto (some 40) none (fun _ => false)).1 = true ∧
    (update_temperatures wAuto (some 40) none (fun _ => false)).2.1
        = [[0xFE, 0x1B, 0x01, 44, 0, 0, 0, 0xEF]] ∧
    (update_temperatures wAuto (some 40) none (fun _ => false)).2.2 = true :=
  write_failure_no_transition wAuto (some 40) none (fun _ => false) 40 (89 / 2)
    [0xFE, 0x1B, 0x01, 44, 0, 0, 0, 0xEF] rfl rfl rfl
    (by
      show FanCurveWidget.interpolate defaultCurve 40 = some (89 / 2)
      have hs : sortPoints defaultCurve = defaultCurve := by decide
      unfold FanCurveWidget.interpolate
      rw [hs]
      norm_num [defaultCurve, FanCurveWidget.interpTop, FanCurveWidget.interpGo])
    (by
      have h44 : pyInt (89 / 2) = 44 := by norm_num [pyInt]
      rw [h44]
      decide)
    rfl

/-- Claim C3 counterexample: after a failed fan write on a connected
session, the connection state has not transitioned to Disconnected — the
client field is unchanged and the connectivity guard still holds, while
the exception escaped the handler. -/
theorem write_failure_state_cex :
    connectedB wAuto = true ∧
    (update_temperatures wAuto (some 42) none (fun _ => false)).2.1
        = [[0xFE, 0x1B, 0x01, 45, 0, 0, 0, 0xEF]] ∧
    (update_temperatures wAuto (some 42) none (fun _ => false)).2.2 = true ∧
    connectedB (update_temperatures wAuto (some 42) none (fun _ => false)).1 = true ∧
    (update_temperatures wAuto (some 42) none (fun _ => false)).1.client = wAuto.client := by
  have hint : FanCurveWidget.interpolate wAuto.curve_points 42 = some (917 / 20) := by
    show FanCurveWidget.interpolate defaultCurve 42 = some (917 / 20)
    have hs : sortPoints defaultCurve = defaultCurve := by decide
    unfold FanCurveWidget.interpolate
    rw [hs]
    norm_num [defaultCurve, FanCurveWidget.interpTop, FanCurveWidget.interpGo]
  have hpkt : fan_packet (pyInt (917 / 20)) = some [0xFE, 0x1B, 0x01, 45, 0, 0, 0, 0xEF] := by
    have h45 : pyInt (917 / 20) = 45 := by norm_num [pyInt]
    rw [h45]
    decide
  rw [update_temperatures_send wAuto (some 42) none (fun _ => false) 42 (917 / 20)
    [0xFE, 0x1B, 0x01, 45, 0, 0, 0, 0xEF] rfl rfl rfl hint hpkt]
  exact ⟨rfl, rfl, rfl, rfl, rfl⟩

end Watercooler
